import Mathlib

/-!
# Verification of the deterministic-assignment survey server

A shallow embedding, in Lean 4, of the Flask application in `app/main.py`
(radGPT-UI): the seed derivation `hash_uid`, the three seeded pseudo-random
draws of the GET handler `index` (guidance subset, presentation permutation,
timed bit) together with their demo/allowlist overrides, the post-permutation
reordering of the question, guideline and guidance-mask lists, and the POST
handler `write_answers` with its spam trap, answer indexing, and external
forward.

Python integers are embedded as `Nat` (with explicit `% 2 ^ w` where the
source's arithmetic is word-sized), fallible Python code (uncaught
`KeyError` / `IndexError` / werkzeug `BuildError`) as `Option`, and request
handling as pure functions from the request (plus the process-start file
data, which the source re-reads unchanged on every request) to a response
value.

The calls into external libraries are embedded as follows.  `hashlib.sha256`
is embedded by a full executable SHA-256 over UTF-8 byte lists (checked
below against its standard test vectors).  The numpy generator
`np.random.default_rng(seed)` / `rng.choice(n, size=k, replace=False)` is a
PRNG whose exact bit stream (PCG64) is not reproduced here; it is modelled
by `npChoiceNoReplace`, a deterministic function of `(seed, n, k)` that
draws `k` distinct indices from `[0, n)` without replacement, driven by a
fixed SplitMix64-style word stream salted with the draw shape `k` (the
source reseeds the generator afresh before each of its three draws, so
draws of different shapes are independent word streams).  Every structural
property proved below (determinism, permutation validity, guidance count,
coupling, range of the timed bit) is independent of the particular word
stream; only the concrete drawn values depend on the model.
-/

/-! ## 32-bit word arithmetic on `Nat` -/

/-- Truncate to a 32-bit word (`x % 2^32`). -/
def w32 (x : Nat) : Nat := x % 4294967296

/-- Right rotation of a 32-bit word by `n` places. -/
def rotr (n x : Nat) : Nat := (x >>> n) + (x % 2 ^ n) * 2 ^ (32 - n)

/-- SHA-256 `Ch(e, f, g)`; `4294967295 - e` is the 32-bit complement. -/
def shaCh (e f g : Nat) : Nat := (e &&& f) ^^^ ((4294967295 - w32 e) &&& g)

/-- SHA-256 `Maj(a, b, c)`. -/
def shaMaj (a b c : Nat) : Nat := (a &&& b) ^^^ (a &&& c) ^^^ (b &&& c)

/-- SHA-256 big sigma 0. -/
def shaS0 (a : Nat) : Nat := rotr 2 a ^^^ rotr 13 a ^^^ rotr 22 a

/-- SHA-256 big sigma 1. -/
def shaS1 (e : Nat) : Nat := rotr 6 e ^^^ rotr 11 e ^^^ rotr 25 e

/-- SHA-256 small sigma 0 (message schedule). -/
def shaE0 (x : Nat) : Nat := rotr 7 x ^^^ rotr 18 x ^^^ (x >>> 3)

/-- SHA-256 small sigma 1 (message schedule). -/
def shaE1 (x : Nat) : Nat := rotr 17 x ^^^ rotr 19 x ^^^ (x >>> 10)

/-- The 64 SHA-256 round constants. -/
def shaK : List Nat := [1116352408, 1899447441, 3049323471, 3921009573,
  961987163, 1508970993, 2453635748, 2870763221, 3624381080, 310598401,
  607225278, 1426881987, 1925078388, 2162078206, 2614888103, 3248222580,
  3835390401, 4022224774, 264347078, 604807628, 770255983, 1249150122,
  1555081692, 1996064986, 2554220882, 2821834349, 2952996808, 3210313671,
  3336571891, 3584528711, 113926993, 338241895, 666307205, 773529912,
  1294757372, 1396182291, 1695183700, 1986661051, 2177026350, 2456956037,
  2730485921, 2820302411, 3259730800, 3345764771, 3516065817, 3600352804,
  4094571909, 275423344, 430227734, 506948616, 659060556, 883997877,
  958139571, 1322822218, 1537002063, 1747873779, 1955562222, 2024104815,
  2227730452, 2361852424, 2428436474, 2756734187, 3204031479, 3329325298]

/-- The SHA-256 initial hash state. -/
def shaH0 : List Nat := [1779033703, 3144134277, 1013904242, 2773480762,
  1359893119, 2600822924, 528734635, 1541459225]

/-- The running SHA-256 compression state `(a, b, c, d, e, f, g, h)`. -/
structure Sha8 where
  a : Nat
  b : Nat
  c : Nat
  d : Nat
  e : Nat
  f : Nat
  g : Nat
  h : Nat
deriving DecidableEq, Repr

/-- One SHA-256 compression round, fed the precomputed `K[t] + W[t]`. -/
def shaRound (st : Sha8) (kw : Nat) : Sha8 :=
  let t1 := w32 (st.h + shaS1 st.e + shaCh st.e st.f st.g + kw)
  let t2 := w32 (shaS0 st.a + shaMaj st.a st.b st.c)
  ⟨w32 (t1 + t2), st.a, st.b, st.c, w32 (st.d + t1), st.e, st.f, st.g⟩

/-- Extend a reversed 16-word block by `c` schedule words (reversed order). -/
def shaExtend : Nat → List Nat → List Nat
  | 0, rw => rw
  | c + 1, rw =>
      shaExtend c
        (w32 (shaE1 (rw.getD 1 0) + rw.getD 6 0 + shaE0 (rw.getD 14 0) +
          rw.getD 15 0) :: rw)

/-- Compress one 16-word block into the running state. -/
def shaBlock (hs : List Nat) (block : List Nat) : List Nat :=
  let W := (shaExtend 48 block.reverse).reverse
  let init : Sha8 :=
    ⟨hs.getD 0 0, hs.getD 1 0, hs.getD 2 0, hs.getD 3 0,
     hs.getD 4 0, hs.getD 5 0, hs.getD 6 0, hs.getD 7 0⟩
  let st := (W.zip shaK).foldl (fun s p => shaRound s (w32 (p.2 + p.1))) init
  [w32 (hs.getD 0 0 + st.a), w32 (hs.getD 1 0 + st.b),
   w32 (hs.getD 2 0 + st.c), w32 (hs.getD 3 0 + st.d),
   w32 (hs.getD 4 0 + st.e), w32 (hs.getD 5 0 + st.f),
   w32 (hs.getD 6 0 + st.g), w32 (hs.getD 7 0 + st.h)]

/-- Big-endian bytes of `v`, `k` bytes wide. -/
def toBytesBE : Nat → Nat → List Nat
  | 0, _ => []
  | k + 1, v => toBytesBE k (v / 256) ++ [v % 256]

/-- Group a byte list into big-endian 32-bit words. -/
def bytesToWords : List Nat → List Nat
  | a :: b :: c :: d :: rest =>
      (((a * 256 + b) * 256 + c) * 256 + d) :: bytesToWords rest
  | _ => []

/-- Split a word list into 16-word blocks (`fuel` bounds the recursion). -/
def chunk16 : Nat → List Nat → List (List Nat)
  | 0, _ => []
  | _, [] => []
  | fuel + 1, ws => ws.take 16 :: chunk16 fuel (ws.drop 16)

/-- SHA-256 padding of a byte-list message. -/
def shaPad (msg : List Nat) : List Nat :=
  msg ++ 128 :: List.replicate ((119 - msg.length % 64) % 64) 0 ++
    toBytesBE 8 (8 * msg.length % 2 ^ 64)

/-- The SHA-256 digest of a byte list, read as a big-endian natural number
(this is Python's `int(hashlib.sha256(b).hexdigest(), 16)`). -/
def sha256Nat (msg : List Nat) : Nat :=
  let ws := bytesToWords (shaPad msg)
  let hs := (chunk16 ws.length ws).foldl shaBlock shaH0
  hs.foldl (fun acc w => acc * 4294967296 + w) 0

/-- UTF-8 encoding of a single character (code point to byte list). -/
def utf8Char (c : Char) : List Nat :=
  let n := c.toNat
  if n < 128 then [n]
  else if n < 2048 then [192 + n / 64, 128 + n % 64]
  else if n < 65536 then [224 + n / 4096, 128 + n / 64 % 64, 128 + n % 64]
  else [240 + n / 262144, 128 + n / 4096 % 64, 128 + n / 64 % 64,
        128 + n % 64]

/-- UTF-8 encoding of a string, as a byte list (Python `s.encode("utf-8")`). -/
def utf8Bytes (s : String) : List Nat := (s.data.map utf8Char).flatten

/-! ## Python string primitives

The Python string methods used by the handlers, re-implemented over
character lists by structural recursion (the corresponding core `String`
functions recurse on byte positions with well-founded recursion, which the
kernel cannot unfold when evaluating concrete witnesses).  Lowercasing is
ASCII, which covers every string the source compares. -/

/-- Python `s.lower()` (ASCII). -/
def pyLower (s : String) : String := String.mk (s.data.map Char.toLower)

/-- A Python whitespace character (ASCII part of `str.strip`). -/
def isSpaceChar (c : Char) : Bool :=
  c == ' ' || c == '\t' || c == '\n' || c == '\r' || c.toNat == 11 ||
    c.toNat == 12

/-- Python `s.strip()` (ASCII whitespace). -/
def pyStrip (s : String) : String :=
  String.mk (((s.data.dropWhile isSpaceChar).reverse.dropWhile
    isSpaceChar).reverse)

/-- `matchAt pat l`: does `pat` occur at the head of `l`? -/
def matchAt : List Char → List Char → Bool
  | [], _ => true
  | _ :: _, [] => false
  | p :: ps, c :: cs => p == c && matchAt ps cs

/-- `hasSub pat l`: does `pat` occur contiguously anywhere in `l`? -/
def hasSub : List Char → List Char → Bool
  | pat, [] => pat.isEmpty
  | pat, c :: cs => matchAt pat (c :: cs) || hasSub pat cs

/-- Python's `needle in haystack` on strings. -/
def containsSub (haystack needle : String) : Bool :=
  hasSub needle.data haystack.data

/-- Replace non-overlapping occurrences of `pat` left to right (`fuel`
bounds the recursion; used only with non-empty patterns, as in the
source). -/
def pyReplaceAux (pat rep : List Char) : Nat → List Char → List Char
  | 0, l => l
  | _, [] => []
  | fuel + 1, c :: cs =>
      if matchAt pat (c :: cs) then
        rep ++ pyReplaceAux pat rep fuel ((c :: cs).drop pat.length)
      else c :: pyReplaceAux pat rep fuel cs

/-- Python `s.replace(pat, rep)` for non-empty `pat`. -/
def pyReplace (s pat rep : String) : String :=
  String.mk (pyReplaceAux pat.data rep.data (s.data.length + 1) s.data)

/-- Splitting worker: `acc` holds the current field reversed. -/
def pySplitAux (sep : List Char) : Nat → List Char → List Char →
    List (List Char)
  | 0, acc, _ => [acc.reverse]
  | _, acc, [] => [acc.reverse]
  | fuel + 1, acc, c :: cs =>
      if matchAt sep (c :: cs) then
        acc.reverse :: pySplitAux sep fuel [] ((c :: cs).drop sep.length)
      else pySplitAux sep fuel (c :: acc) cs

/-- Python `s.split(sep)` for non-empty `sep` (an empty string yields
`[""]`, as Python does). -/
def pySplit (s sep : String) : List String :=
  (pySplitAux sep.data (s.data.length + 1) [] s.data).map String.mk

/-- `hash_uid` from `app/main.py`: the SHA-256 digest of the UTF-8 encoding
of `uid`, read as a natural number and reduced modulo `10^8`. -/
def hash_uid (uid : String) : Nat := sha256Nat (utf8Bytes uid) % (10 ^ 8)

/-! ## Model of the seeded numpy draws

`np.random.default_rng(seed)` followed by `rng.choice(n, size=k,
replace=False)` is modelled by `npChoiceNoReplace seed n k`: a fixed
SplitMix64-style word stream (salted with the draw shape `k`, since the
source reseeds afresh before each differently-shaped draw) drives a
draw-without-replacement over `[0, n)`. -/

/-- Truncate to a 64-bit word. -/
def w64 (x : Nat) : Nat := x % 18446744073709551616

/-- SplitMix64 finalizer: the word-stream mixing function of the PRNG
model. -/
def mix64 (z : Nat) : Nat :=
  let z1 := w64 ((z ^^^ (z >>> 30)) * 13787848793156543929)
  let z2 := w64 ((z1 ^^^ (z1 >>> 27)) * 10723151780598845931)
  z2 ^^^ (z2 >>> 31)

/-- The `i`-th word of the modelled PRNG stream for stream seed `s0`. -/
def streamWord (s0 i : Nat) : Nat := mix64 (w64 (s0 + (i + 1) * 11400714819323198485))

/-- Stream seed for a draw of shape `k` from generator seed `seed`
(the shape salt keeps differently-shaped draws independent). -/
def chSeed (seed k : Nat) : Nat := mix64 (w64 (seed * 4294967296 + k))

/-- Draw the elements of `l` one by one without replacement: at step `i`,
remove the element at position `streamWord s0 i % l.length`.  `fuel` bounds
the recursion and is taken `≥ l.length`. -/
def drawAux (s0 : Nat) : Nat → Nat → List Nat → List Nat
  | 0, _, _ => []
  | _, _, [] => []
  | fuel + 1, i, x :: xs =>
      let j := streamWord s0 i % (x :: xs).length
      (x :: xs).getD j x :: drawAux s0 fuel (i + 1) ((x :: xs).eraseIdx j)

/-- Model of `np.random.default_rng(seed).choice(n, size=k, replace=False)`:
`k` distinct indices drawn from `[0, n)` without replacement, a pure
function of `(seed, n, k)`. -/
def npChoiceNoReplace (seed n k : Nat) : List Nat :=
  (drawAux (chSeed seed k) n 0 (List.range n)).take k

/-- The guidance subset drawn at `app/main.py:207`:
`rng.choice(len(questions), size=(len(questions) // 2), replace=False)`. -/
def withGuidance (seed n : Nat) : List Nat := npChoiceNoReplace seed n (n / 2)

/-- The pre-permutation guidance mask built at `app/main.py:210`:
`[qidx in with_guidance for qidx in np.arange(len(questions))]`. -/
def showGuidance (seed n : Nat) : List Bool :=
  (List.range n).map (fun q => decide (q ∈ withGuidance seed n))

/-- The presentation order drawn at `app/main.py:215`:
`rng.choice(len(questions), size=len(questions), replace=False)`. -/
def sortIdxs (seed n : Nat) : List Nat := npChoiceNoReplace seed n n

/-- The timed bit drawn at `app/main.py:220`:
`rng.choice(2, size=1, replace=False)[0]`. -/
def timedDraw (seed : Nat) : Nat := (npChoiceNoReplace seed 2 1).headD 0

/-- `PGY_PARTICIPANTS` from `app/main.py`: the hand-maintained allowlist of
hashed identifiers whose timed condition is forced. -/
def PGY_PARTICIPANTS : List String := [
  "7fcf2f33990f1031ffa1b3b1a1af65ddd74d82c1ba2cb10b502b55d22a7d531c769a4b2f5f1555ddb781cee970b9200c25d969a6099d1842d3cc8317dc6877e3",
  "072ae74ae00365202734f5b8dd420d67fbbb636f14e4d7b024cd06b0573f713ddd90880d386a061e45c251062d7110c54ca8da09a01714a1a99bad20a7f5b635",
  "77f2092e7247d9664bddb96fccd115314ecb55fd05667bd5a5d981a3125a753af93ddbdb4ac9489604dbee4df94a2a928f75952d88f23f62641f0fd31a8dd780",
  "96e8f28c6c75a9ddf806dc55ef0f71df984e95c750d206b7649dfa5d9bc2a06084dd47437de5027e07be20d96815da32bedd86db71ab3d7aa8ddcf23ce7a5d03",
  "47333aaf4d3eba3e72c6773d3babc413ab6e1aecbd1a35b9cb415c44cc2246a5d60e6ab4f9c5a1b7344699187d9e627b9e9e777c4f13bf5bbe943534e08a56c0",
  "3506131688abd9bf086c20e14d9a4f27a420cbb624b8c9c85d8014f9a57748bf7ed43817959291fb6698d8af6458aad46fe43fd35b1e79f5aaece9d31f02c9b7",
  "cdda740ff28719614f6df6e0f2c9e70273ce359adbd557895e5b763f94b875ae5713c8b11bc0b060bc59a3db65c5704e437a0026ef17d1f0a338dd0dace545d8",
  "875e88de37a21b1a26850de1f1c5eb21dd8f3234f8be19e991d387b278b4cfae381533ab71f3cf6fc474ca178677e01d04a2e10b9a7d0a2ae9e6297ec6fe4878",
  "407377c6c6f7a3e78a58b4bbf38e879e0c24c3f011f59cf640b128e251ce45df8a2e74e63954a61258c4928bc3b758b6178f86599e00b6f309ce913feae14c9a"]

/-- The timed flag of the GET handler (`app/main.py:219-224`): the seeded
binary draw, overridden to `"0"` on the demo path and to `"1"` for
identifiers on the `PGY_PARTICIPANTS` allowlist. -/
def timedFlag (uid : String) (is_demo : Bool) : String :=
  let t0 := toString (timedDraw (hash_uid uid))
  let t1 := if is_demo then "0" else t0
  if PGY_PARTICIPANTS.contains uid then "1" else t1

/-! ## Static file data and the GET handler `index`

The case file (`cases.jsonl` / `demo.jsonl`), the guideline file
(`guidelines.jsonl`) and the study list (`studies.txt`) are data read at
request time from disk; the handler is embedded as a function of their
parsed contents, which the source never mutates. -/

/-- One record of `cases.jsonl`: the fields `case` and `topics` used by the
handler. -/
structure CaseRec where
  caseText : String
  topics : List String
deriving DecidableEq, Repr

/-- One entry of a guideline scenario's `Studies` list (the fields the
handler reads; `Adult RRL` is read through Python `int(...)`). -/
structure Study where
  procedure : String
  adultRRL : Int
  appropriatenessCategory : String
deriving DecidableEq, Repr

/-- One entry of a guideline record's `Scenarios` list. -/
structure Scenario where
  scenario : String
  studies : List Study
deriving DecidableEq, Repr

/-- One record of `guidelines.jsonl`. -/
structure GuidelineRec where
  topic : String
  scenarios : List Scenario
deriving DecidableEq, Repr

/-- One row of a rendered guideline table
(`{"Procedure": ..., "Radiation": ..., "Category": ...}`). -/
structure GRow where
  procedure : String
  radiation : String
  category : String
deriving DecidableEq, Repr

/-- One entry of the per-case guideline list
(`{"Topic": t, "Table": guidelines[t]}`). -/
structure TopicTable where
  topic : String
  table : List GRow
deriving DecidableEq, Repr

/-- The `category_to_format` defaultdict of `app/main.py:176-181`
(default `"gray"`). -/
def category_to_format (c : String) : String :=
  if c = "Usually appropriate" then "green"
  else if c = "May be appropriate" then "yellow"
  else if c = "Usually not appropriate" then "red"
  else "gray"

/-- The `Radiation` cell of `app/main.py:188-192`: the radiation symbol
repeated `Adult RRL` times, or `"None"` when that value is not positive. -/
def radiationStr (rrl : Int) : String :=
  if 0 < rrl then String.join (List.replicate rrl.toNat "☢ ") else "None"

/-- One rendered guideline-table row (`app/main.py:186-196`). -/
def buildRow (st : Study) : GRow :=
  ⟨st.procedure, radiationStr st.adultRRL,
   category_to_format st.appropriatenessCategory⟩

/-- `read_guidelines` post-processing (`app/main.py:119-128`): the record
for topic `"Suspected Pulmonary Embolism"`, when present, gets its
second-to-last scenario appended and its scenario list reversed; `none`
models the uncaught `IndexError` raised when that record has fewer than two
scenarios (a `ValueError` from a missing topic is caught and leaves the
records unchanged). -/
def read_guidelines (gls : List GuidelineRec) : Option (List GuidelineRec) :=
  match (gls.map (fun g => g.topic)).indexOf? "Suspected Pulmonary Embolism" with
  | none => some gls
  | some idx =>
      match gls.get? idx with
      | none => some gls
      | some r =>
          if r.scenarios.length < 2 then none
          else
            let scs := r.scenarios ++
              [r.scenarios.getD (r.scenarios.length - 2) ⟨"", []⟩]
            some (gls.set idx ⟨r.topic, scs.reverse⟩)

/-- Map with failure propagation (models a Python comprehension whose body
may raise). -/
def mapMo (f : α → Option β) : List α → Option (List β)
  | [] => some []
  | x :: xs =>
      match f x, mapMo f xs with
      | some y, some ys => some (y :: ys)
      | _, _ => none

/-- The topic-keyed guideline dictionary of `app/main.py:184-200`, as an
association list (a duplicated topic overwrites: lookup takes the last
entry).  `none` models the uncaught `IndexError` from `Scenarios[0]` on a
record with an empty scenario list. -/
def buildGdict (recs : List GuidelineRec) :
    Option (List (String × List GRow)) :=
  mapMo (fun r =>
    match r.scenarios with
    | [] => none
    | sc :: _ => some (r.topic, sc.studies.map buildRow)) recs

/-- Dictionary lookup where the last binding of a key wins (Python dict
built left to right). -/
def lookupLast (pairs : List (String × List GRow)) (t : String) :
    Option (List GRow) :=
  (pairs.reverse.find? (fun p => p.1 == t)).map (fun p => p.2)

/-- The per-case guideline list of `app/main.py:201-204`; `none` models the
uncaught `KeyError` when a case topic is absent from the dictionary. -/
def caseGuidelines (pairs : List (String × List GRow))
    (topics : List (List String)) : Option (List (List TopicTable)) :=
  mapMo (fun tl => mapMo (fun t =>
    (lookupLast pairs t).map (fun tab => (⟨t, tab⟩ : TopicTable))) tl) topics

/-- `read_imaging_studies` (`app/main.py:41-55`): the stripped lines of
`studies.txt` followed by `"None"`. -/
def read_imaging_studies (raw : List String) : List String :=
  raw.map pyStrip ++ ["None"]

/-- The inner `add_alts` of `add_alternate_matches` (`app/main.py:69-81`),
with the lower-cased string re-examined after each conditional append, as
in the source. -/
def add_alts (sep_token study : String) : String :=
  let s1 := if containsSub (pyLower study) "radiograph" then
      study ++ sep_token ++ "X-ray" ++ sep_token ++ "X ray" else study
  let s2 := if containsSub (pyLower s1) "radiograph" &&
      containsSub (pyLower s1) "chest" then
      s1 ++ sep_token ++ "CXR" ++ sep_token ++ "Chest X-ray" ++ sep_token ++
        "Chest X ray" else s1
  let s3 := if containsSub (pyLower s2) "mri" then
      s2 ++ "Magnetic Resonance Imaging" else s2
  let s4 := if containsSub (pyLower s3) "ct" then
      s3 ++ "Computed Tomography" else s3
  if containsSub (pyLower s4) "us" then s4 ++ "Ultrasound" else s4

/-- `add_alternate_matches` (`app/main.py:58-83`) at its default separator
token. -/
def add_alternate_matches (studies : List String) : List String :=
  studies.map (add_alts "<|***|>")

/-- The reordering idiom `[xs[idx] for idx in sort_idxs]` of
`app/main.py:226-228` (`d` is returned on an out-of-range index, which the
handler never produces). -/
def reorder (l : List α) (idxs : List Nat) (d : α) : List α :=
  idxs.map (fun i => l.getD i d)

/-- `show_guidance_str` (`app/main.py:229`):
`"".join([str(int(b)) for b in show_guidance])`. -/
def maskStr (l : List Bool) : String :=
  String.join (l.map (fun b => if b then "1" else "0"))

/-- The comma-joined index string of `app/main.py:230`. -/
def joinComma (l : List Nat) : String :=
  String.intercalate "," (l.map (fun i => toString i))

/-- The file-derived data the handlers read on each request (read-only). -/
structure Static where
  cases : List CaseRec
  demoCases : List CaseRec
  glRecords : List GuidelineRec
  studiesRaw : List String
deriving DecidableEq, Repr

/-- A GET request to `/` or `/<demo>`: the path parameter (`""` for the
bare route, as in the source's default argument) and the query-string
pairs. -/
structure GetReq where
  demoPath : String
  args : List (String × String)
deriving DecidableEq, Repr

/-- First value bound to key `k` in a field list, if any (Flask
`request.args.get(k, None)` / `MultiDict` lookup). -/
def argsGet? (args : List (String × String)) (k : String) : Option String :=
  (args.find? (fun p => p.1 == k)).map (fun p => p.2)

/-- The response of the GET handler: the instructions page, an uncaught
exception (HTTP 500), or the rendered survey with every template variable
the source passes to `index.html`. -/
inductive IndexResponse where
  | instructions
  | serverError
  | survey (options options_pretty questions : List String)
      (guidelines : List (List TopicTable))
      (show_guidance : List Bool) (show_guidance_str : String)
      (uid seed sort_idxs timed : String)
deriving DecidableEq, Repr

/-- The GET handler `index` (`app/main.py:156-247`), as a function of the
request and the file data: derive the seed, build the guideline tables,
draw the guidance mask, the presentation order and the timed flag from
three freshly seeded generators, reorder questions, guidelines and mask by
the drawn order, and render. -/
def handleGet (st : Static) (r : GetReq) : IndexResponse :=
  let is_demo := pyLower r.demoPath == "demo"
  match (if is_demo then some "demo" else argsGet? r.args "uid") with
  | none => .instructions
  | some uid =>
      let seed := hash_uid uid
      let cases := if is_demo then st.demoCases else st.cases
      let questions := cases.map (fun c => c.caseText)
      let topics := cases.map (fun c => c.topics)
      match read_guidelines st.glRecords with
      | none => .serverError
      | some recs =>
          match buildGdict recs with
          | none => .serverError
          | some pairs =>
              match caseGuidelines pairs topics with
              | none => .serverError
              | some guidelines =>
                  let n := questions.length
                  let show_guidance := showGuidance seed n
                  let sort_idxs := sortIdxs seed n
                  let timed := timedFlag uid is_demo
                  let questions2 := reorder questions sort_idxs ""
                  let guidelines2 := reorder guidelines sort_idxs []
                  let show_guidance2 := reorder show_guidance sort_idxs false
                  let options_pretty := read_imaging_studies st.studiesRaw
                  let options := add_alternate_matches options_pretty
                  .survey options options_pretty questions2 guidelines2
                    show_guidance2 (maskStr show_guidance2) uid
                    (toString seed) (joinComma sort_idxs) timed

/-- A sequence of GET requests processed by the server: the source keeps no
mutable state between requests, so serving is a map over the request
history. -/
def serve (st : Static) (rs : List GetReq) : List IndexResponse :=
  rs.map (handleGet st)

/-! ## The POST handler `write_answers` -/

/-- Outcome of the external forward `requests.get(form_url)`: the network
is unreachable (`requests.exceptions.ConnectionError`) or a response with
the given status code. -/
inductive Net where
  | down
  | status (code : Nat)
deriving DecidableEq, Repr

/-- The HTTP-visible result of the POST handler: `abort(500)`, a redirect,
or an uncaught exception (HTTP 500). -/
inductive PostResult where
  | abort500
  | redirectTo (path : String)
  | serverError
deriving DecidableEq, Repr

/-- The result of a POST together with the list of URLs the handler fetched
(the persistence/forward side effect). -/
structure PostOutcome where
  result : PostResult
  forwards : List String
deriving DecidableEq, Repr

/-- The endpoint-name-to-path table built by the route decorators of
`create_app` (parameterised endpoints, which `url_for` cannot build without
arguments, are omitted: building any name outside this table raises
werkzeug's `BuildError`). -/
def flaskEndpoints : List (String × String) :=
  [("index", "/"), ("success", "/success"), ("error", "/error"),
   ("write_answers", "/api/v1/submit")]

/-- Flask's `url_for` on this app: `none` models the `BuildError` raised
for an unknown endpoint name. -/
def url_for (endpoint : String) : Option String :=
  (flaskEndpoints.find? (fun p => p.1 == endpoint)).map (fun p => p.2)

/-- `redirect(url_for(e))`: a redirect when the endpoint exists, otherwise
the uncaught `BuildError` becomes HTTP 500. -/
def redirectEndpoint (e : String) (fw : List String) : PostOutcome :=
  match url_for e with
  | some p => ⟨.redirectTo p, fw⟩
  | none => ⟨.serverError, fw⟩

/-- `re.fullmatch(r"Q\d+", s)` (`app/main.py:268-272`): a `Q` followed by
one or more digits. -/
def isQKey (s : String) : Bool :=
  match s.data with
  | 'Q' :: rest => !rest.isEmpty && rest.all Char.isDigit
  | _ => false

/-- `request.form.get(k, d)`: first value bound to `k`, else the default. -/
def formGet (form : List (String × String)) (k d : String) : String :=
  ((form.find? (fun p => p.1 == k)).map (fun p => p.2)).getD d

/-- The answer-indexing loop of `app/main.py:274-279`: each free-text
answer becomes the string of its first index in the canonical study list,
or the sentinel `"-1"` when `studies.index(a)` raises `ValueError`. -/
def answerIndices (studies answers : List String) : List String :=
  answers.map (fun a =>
    match studies.indexOf? a with
    | some i => toString i
    | none => "-1")

/-- Two lowercase hex digits of a byte. -/
def hexByte (b : Nat) : String :=
  let dig := fun n => String.singleton (Nat.digitChar n)
  dig (b / 16 % 16) ++ dig (b % 16)

/-- Four lowercase hex digits. -/
def hex4 (n : Nat) : String := hexByte (n / 256 % 256) ++ hexByte (n % 256)

/-- Two uppercase hex digits of a byte (percent-encoding uses uppercase). -/
def hexByteU (b : Nat) : String :=
  let dig := fun n =>
    String.singleton (if n < 10 then Nat.digitChar n else Char.ofNat (55 + n))
  dig (b / 16 % 16) ++ dig (b % 16)

/-- `urllib.parse.quote_plus` on one UTF-8 byte: letters, digits, `_.-~`
kept, space to `+`, all else percent-encoded. -/
def quotePlusByte (b : Nat) : String :=
  if b = 32 then "+"
  else if (48 ≤ b && b ≤ 57) || (65 ≤ b && b ≤ 90) || (97 ≤ b && b ≤ 122) ||
      b = 45 || b = 46 || b = 95 || b = 126 then
    String.singleton (Char.ofNat b)
  else "%" ++ hexByteU b

/-- `urllib.parse.quote_plus` at its default `safe` set. -/
def quotePlus (s : String) : String :=
  String.join ((utf8Bytes s).map quotePlusByte)

/-- `json.dumps` escaping of one character (default `ensure_ascii=True`). -/
def jsonEscChar (c : Char) : String :=
  let n := c.toNat
  if c = '"' then "\\\""
  else if c = '\\' then "\\\\"
  else if n = 8 then "\\b"
  else if n = 9 then "\\t"
  else if n = 10 then "\\n"
  else if n = 12 then "\\f"
  else if n = 13 then "\\r"
  else if n < 32 || n > 126 then
    if n < 65536 then "\\u" ++ hex4 n
    else
      "\\u" ++ hex4 (55296 + (n - 65536) / 1024) ++
        "\\u" ++ hex4 (56320 + (n - 65536) % 1024)
  else String.singleton c

/-- `json.dumps` of a list of strings (default separators). -/
def jsonDumps (l : List String) : String :=
  "[" ++ String.intercalate ", "
    (l.map (fun s => "\"" ++ String.join (s.data.map jsonEscChar) ++ "\"")) ++
    "]"

/-- The Google-Forms URL template of `app/main.py:296-311` with its five
used placeholders interpolated (the `seed` and `with_guidance` keyword
arguments of the source's `format` call match no placeholder and are
ignored, as Python does). -/
def form_url (user answer time duration is_timed : String) : String :=
  "https://docs.google.com/forms/d/e/" ++
  "1FAIpQLSdjaP9_HApCZgCC9VaoPFMCMUIgJmXfRcC2Tb31jURG4NPxqQ/" ++
  "formResponse?&submit=Submit?usp=pp_url&entry.1566494565=" ++ user ++
  "&entry.1604544479=" ++ answer ++ "&entry.921671925=" ++ time ++
  "&entry.2066832372=" ++ duration ++ "&entry.734084621=" ++ is_timed

/-- The POST handler `write_answers` (`app/main.py:258-318`), as a function
of the form fields, the study file, the current time string and the network
outcome.  A non-empty `name` field aborts with HTTP 500 before anything
else is read; a demo identifier redirects to success without forwarding;
otherwise the answers are indexed against the canonical study list, the
response payload is assembled and forwarded, and the handler redirects
according to the outcome (`url_for("error/connection")` and
`url_for("error/post")` name no endpoint of the app, so those branches
raise `BuildError`). -/
def write_answers (form : List (String × String)) (studiesRaw : List String)
    (now : String) (net : Net) : PostOutcome :=
  if (formGet form "name" "").length ≠ 0 then ⟨.abort500, []⟩
  else
    let uid := formGet form "uid" "None"
    if pyLower uid == "demo" then redirectEndpoint "success" []
    else
      let studies := read_imaging_studies studiesRaw
      let qas := form.filter (fun p => isQKey p.1)
      let answers := qas.map (fun p => p.2)
      let aidxs := answerIndices studies answers
      let qidxs := pySplit (pyReplace (pyReplace
        (formGet form "sort_idxs" "None") "[" "") "]" "") ","
      let with_guidance :=
        (formGet form "with_guidance" "").data.map String.singleton
      let response := (qidxs.zip (aidxs.zip with_guidance)).map
        (fun p => "Q" ++ p.1 ++ ",A" ++ p.2.1 ++ "," ++ p.2.2)
      let is_timed := formGet form "timed" "None"
      let duration := formGet form "duration" "None"
      let url := form_url uid (quotePlus (jsonDumps response)) (quotePlus now)
        duration is_timed
      match net with
      | .down => redirectEndpoint "error/connection" [url]
      | .status c =>
          if c = 200 then redirectEndpoint "success" [url]
          else redirectEndpoint "error/post" [url]

/-! ## Helper lemmas -/

/-- `getD` at an in-range position does not depend on the default. -/
theorem getD_congr : ∀ (l : List α) (i : Nat) (d1 d2 : α), i < l.length →
    l.getD i d1 = l.getD i d2 := by
  intro l
  induction l with
  | nil => intro i d1 d2 h; exact absurd h (by simp)
  | cons x xs ih =>
    intro i d1 d2 h
    match i with
    | 0 => rfl
    | i + 1 => exact ih i d1 d2 (by simpa using h)

/-- `getD` through `map`, at an in-range position. -/
theorem getD_map_lt (f : α → β) : ∀ (l : List α) (i : Nat) (d : α),
    i < l.length → (l.map f).getD i (f d) = f (l.getD i d) := by
  intro l
  induction l with
  | nil => intro i d h; exact absurd h (by simp)
  | cons x xs ih =>
    intro i d h
    match i with
    | 0 => rfl
    | i + 1 => exact ih i d (by simpa using h)

/-- Removing the element at an in-range position and re-consing it is a
permutation of the original list. -/
theorem cons_eraseIdx_perm : ∀ (l : List α) (j : Nat) (d : α), j < l.length →
    List.Perm (l.getD j d :: l.eraseIdx j) l := by
  intro l
  induction l with
  | nil => intro j d h; exact absurd h (by simp)
  | cons x xs ih =>
    intro j d h
    match j with
    | 0 => exact List.Perm.refl _
    | j + 1 =>
      have h1 := ih j d (by simpa using h)
      exact (List.Perm.swap x (xs.getD j d) (xs.eraseIdx j)).trans
        (h1.cons x)

/-- The draw-without-replacement loop returns a permutation of its input
whenever the fuel covers the list length. -/
theorem drawAux_perm (s0 : Nat) : ∀ (fuel i : Nat) (l : List Nat),
    l.length ≤ fuel → List.Perm (drawAux s0 fuel i l) l := by
  intro fuel
  induction fuel with
  | zero =>
    intro i l hl
    have : l = [] := List.eq_nil_of_length_eq_zero (Nat.le_zero.mp hl)
    subst this
    exact List.Perm.refl _
  | succ f ih =>
    intro i l hl
    match l with
    | [] => exact List.Perm.refl _
    | x :: xs =>
      simp only [drawAux]
      have hj : streamWord s0 i % (x :: xs).length < (x :: xs).length :=
        Nat.mod_lt _ (by simp)
      have hlen : ((x :: xs).eraseIdx
          (streamWord s0 i % (x :: xs).length)).length ≤ f := by
        have := List.length_eraseIdx_add_one hj
        omega
      exact ((ih _ _ hlen).cons _).trans (cons_eraseIdx_perm _ _ _ hj)

/-- The full-size draw is the whole shuffled list. -/
theorem npChoice_full (seed n : Nat) :
    npChoiceNoReplace seed n n = drawAux (chSeed seed n) n 0 (List.range n) := by
  unfold npChoiceNoReplace
  have hp := drawAux_perm (chSeed seed n) n 0 (List.range n) (by simp)
  have hlen : (drawAux (chSeed seed n) n 0 (List.range n)).length = n := by
    simpa using hp.length_eq
  exact List.take_of_length_le (by omega)

/-- The full-size draw is a permutation of `[0, n)`. -/
theorem npChoice_full_perm (seed n : Nat) :
    List.Perm (npChoiceNoReplace seed n n) (List.range n) := by
  rw [npChoice_full]
  exact drawAux_perm _ _ _ _ (by simp)

/-- Every draw without replacement has no duplicates. -/
theorem npChoice_nodup (seed n k : Nat) :
    (npChoiceNoReplace seed n k).Nodup := by
  unfold npChoiceNoReplace
  have hp := drawAux_perm (chSeed seed k) n 0 (List.range n) (by simp)
  exact (List.take_sublist _ _).nodup (hp.nodup_iff.mpr (List.nodup_range n))

/-- Every drawn index lies in `[0, n)`. -/
theorem npChoice_mem_lt (seed n k x : Nat)
    (hx : x ∈ npChoiceNoReplace seed n k) : x < n := by
  unfold npChoiceNoReplace at hx
  have hp := drawAux_perm (chSeed seed k) n 0 (List.range n) (by simp)
  exact List.mem_range.mp (hp.subset (List.take_subset _ _ hx))

/-- The draw of `k ≤ n` indices has length exactly `k`. -/
theorem npChoice_length (seed n k : Nat) (h : k ≤ n) :
    (npChoiceNoReplace seed n k).length = k := by
  unfold npChoiceNoReplace
  have hp := drawAux_perm (chSeed seed k) n 0 (List.range n) (by simp)
  have hlen : (drawAux (chSeed seed k) n 0 (List.range n)).length = n := by
    simpa using hp.length_eq
  simp [hlen, h]

/-- The number of `true` entries of the pre-permutation guidance mask is
the size of the drawn guidance subset. -/
theorem showGuidance_count (seed n : Nat) :
    (showGuidance seed n).count true = n / 2 := by
  have hnd : (withGuidance seed n).Nodup := npChoice_nodup seed n (n / 2)
  have hlen : (withGuidance seed n).length = n / 2 :=
    npChoice_length seed n (n / 2) (Nat.div_le_self n 2)
  have h1 : (showGuidance seed n).count true =
      (List.range n).countP (fun q => decide (q ∈ withGuidance seed n)) := by
    unfold showGuidance
    simp only [List.count, List.countP_map]
    congr 1
    funext q
    simp [Function.comp]
  have h2 : List.Perm
      ((List.range n).filter (fun q => decide (q ∈ withGuidance seed n)))
      (withGuidance seed n) := by
    refine List.perm_of_nodup_nodup_toFinset_eq
      ((List.nodup_range n).filter _) hnd ?_
    ext a
    simp only [List.mem_toFinset, List.mem_filter, List.mem_range,
      decide_eq_true_eq]
    exact ⟨fun h => h.2, fun h => ⟨npChoice_mem_lt seed n (n / 2) a h, h⟩⟩
  rw [h1, List.countP_eq_length_filter, h2.length_eq, hlen]

/-- The mask has one entry per case. -/
theorem showGuidance_length (seed n : Nat) :
    (showGuidance seed n).length = n := by
  simp [showGuidance]

/-- The drawn presentation order has length `n`. -/
theorem sortIdxs_length (seed n : Nat) : (sortIdxs seed n).length = n := by
  simpa using (npChoice_full_perm seed n).length_eq

/-- The modelled timed draw is a binary value. -/
theorem timedDraw_lt_two (seed : Nat) : timedDraw seed < 2 := by
  unfold timedDraw
  match h : npChoiceNoReplace seed 2 1 with
  | [] => simp
  | a :: t =>
    have ha : a ∈ npChoiceNoReplace seed 2 1 := by
      rw [h]; exact List.mem_cons_self a t
    simpa using npChoice_mem_lt seed 2 1 a ha

/-- Indexing a reordered list at an in-range position reads the source list
at the drawn index. -/
theorem reorder_getD (l : List α) (idxs : List Nat) (d : α) (k : Nat)
    (hk : k < idxs.length) :
    (reorder l idxs d).getD k d = l.getD (idxs.getD k 0) d := by
  unfold reorder
  exact (getD_congr _ k d ((fun i => l.getD i d) 0) (by simpa using hk)).trans
    (getD_map_lt (fun i => l.getD i d) idxs k 0 hk)

/-! ## Sanity checks of the SHA-256 embedding -/

/-- SHA-256 sanity check: seed of the empty string (checked against
`hashlib`). -/
theorem hash_uid_empty : hash_uid "" = 65086549 := by decide

/-- SHA-256 sanity check: seed of `"u1"` (checked against `hashlib`). -/
theorem hash_uid_u1 : hash_uid "u1" = 41909017 := by decide

/-- SHA-256 sanity check: seed of `"demo"` (checked against `hashlib`). -/
theorem hash_uid_demo : hash_uid "demo" = 3209706 := by decide

/-! ## The claims -/

/-- **C1**: the full derived assignment is a pure function of the
identifier and the fixed case data: in any history of GET requests served
against the same file data, two requests with identical content (same
identifier, same path) receive identical responses — in particular
bit-identical permutation string, guidance mask and timed flag — with no
dependence on stored state or on the position in the call history. -/
theorem c1_assignment_pure_function (st : Static) (rs : List GetReq)
    (i j : Nat) (hi : i < rs.length) (hj : j < rs.length)
    (h : rs.getD i ⟨"", []⟩ = rs.getD j ⟨"", []⟩) :
    (serve st rs).getD i IndexResponse.instructions =
      (serve st rs).getD j IndexResponse.instructions := by
  unfold serve
  calc (rs.map (handleGet st)).getD i IndexResponse.instructions
      = (rs.map (handleGet st)).getD i (handleGet st ⟨"", []⟩) :=
        getD_congr _ i _ _ (by simpa using hi)
    _ = handleGet st (rs.getD i ⟨"", []⟩) :=
        getD_map_lt (handleGet st) rs i ⟨"", []⟩ hi
    _ = handleGet st (rs.getD j ⟨"", []⟩) := by rw [h]
    _ = (rs.map (handleGet st)).getD j (handleGet st ⟨"", []⟩) :=
        (getD_map_lt (handleGet st) rs j ⟨"", []⟩ hj).symm
    _ = (rs.map (handleGet st)).getD j IndexResponse.instructions :=
        getD_congr _ j _ _ (by simpa using hj)

/-- **C1 witness**: two identical GET requests for identifier `"u1"` in one
history receive the same response. -/
theorem c1_assignment_pure_function_witness :
    (serve ⟨[⟨"q1", ["T1"]⟩, ⟨"q2", ["T1"]⟩], [],
        [⟨"T1", [⟨"S", [⟨"CT head", 2, "Usually appropriate"⟩]⟩]⟩],
        ["CT head"]⟩
      [⟨"", [("uid", "u1")]⟩, ⟨"", [("uid", "u1")]⟩]).getD 0
        IndexResponse.instructions =
    (serve ⟨[⟨"q1", ["T1"]⟩, ⟨"q2", ["T1"]⟩], [],
        [⟨"T1", [⟨"S", [⟨"CT head", 2, "Usually appropriate"⟩]⟩]⟩],
        ["CT head"]⟩
      [⟨"", [("uid", "u1")]⟩, ⟨"", [("uid", "u1")]⟩]).getD 1
        IndexResponse.instructions :=
  c1_assignment_pure_function _ _ 0 1 (by decide) (by decide) (by decide)

/-- **C2**: `hash_uid` is total on strings, returns a value in
`[0, 10^8)`, is exactly the SHA-256 digest of the UTF-8 encoding reduced
modulo `10^8`, and equal inputs yield equal seeds. -/
theorem c2_hash_uid_contract (s : String) :
    hash_uid s < 10 ^ 8 ∧
    hash_uid s = sha256Nat (utf8Bytes s) % 10 ^ 8 ∧
    ∀ t : String, s = t → hash_uid s = hash_uid t :=
  ⟨Nat.mod_lt _ (by norm_num), rfl, fun _ h => by rw [h]⟩

/-- **C2 witness**: the contract instantiated at the empty string. -/
theorem c2_hash_uid_contract_witness :
    hash_uid "" < 10 ^ 8 ∧ hash_uid "" = hash_uid "" :=
  ⟨(c2_hash_uid_contract "").1, (c2_hash_uid_contract "").2.2 "" rfl⟩

/-- **C3**: for every seed and case count `n`, the drawn presentation
order is a permutation of `[0, n)`: every index below `n` appears exactly
once. -/
theorem c3_permutation_validity (seed n : Nat) :
    List.Perm (sortIdxs seed n) (List.range n) ∧
    ∀ i : Nat, i < n → (sortIdxs seed n).count i = 1 := by
  unfold sortIdxs
  refine ⟨npChoice_full_perm seed n, fun i hi => ?_⟩
  rw [(npChoice_full_perm seed n).count_eq]
  exact List.count_eq_one_of_mem (List.nodup_range n) (List.mem_range.mpr hi)

/-- **C3 witness**: in the order drawn for the seed of `"u1"` and four
cases, index `2` appears exactly once. -/
theorem c3_permutation_validity_witness :
    (sortIdxs 41909017 4).count 2 = 1 :=
  (c3_permutation_validity 41909017 4).2 2 (by decide)

/-- **C4**: the generated (pre-permutation) guidance mask has exactly
`⌊n/2⌋` entries `true` among its `n` entries, the guidance indices being
drawn without replacement; for `n ≤ 1` it degenerates to the all-`false`
mask without error. -/
theorem c4_guidance_balance (seed n : Nat) :
    (showGuidance seed n).count true = n / 2 ∧
    (showGuidance seed n).length = n ∧
    (n ≤ 1 → showGuidance seed n = List.replicate n false) := by
  refine ⟨showGuidance_count seed n, showGuidance_length seed n, fun hn => ?_⟩
  match n, hn with
  | 0, _ => rfl
  | 1, _ =>
    have h0 : withGuidance seed 1 = [] := rfl
    show (List.range 1).map (fun q => decide (q ∈ withGuidance seed 1)) =
      List.replicate 1 false
    rw [h0]
    simp

/-- **C4 witness**: for the seed of `"u1"`, the one-case mask is all
`false` and the four-case mask has exactly two `true` entries. -/
theorem c4_guidance_balance_witness :
    showGuidance 41909017 1 = List.replicate 1 false ∧
    (showGuidance 41909017 4).count true = 2 :=
  ⟨(c4_guidance_balance 41909017 1).2.2 (by decide),
   (c4_guidance_balance 41909017 4).1⟩

/-- `getD` at an in-range position returns an element of the list. -/
theorem getD_mem : ∀ (l : List α) (i : Nat) (d : α), i < l.length →
    l.getD i d ∈ l := by
  intro l
  induction l with
  | nil => intro i d h; exact absurd h (by simp)
  | cons x xs ih =>
    intro i d h
    match i with
    | 0 => exact List.mem_cons_self x xs
    | i + 1 => exact List.mem_cons_of_mem x (ih i d (by simpa using h))

/-- **C5**: the question list, the guideline list and the guidance mask are
reordered by one and the same index mapping: at every output position `k`
the three reordered lists read their source lists at the same drawn index
`sort_idxs[k]` (which is a valid pre-permutation index), so in particular
each case keeps the guidance flag of its pre-permutation index rather than
the flag of its new position. -/
theorem c5_guidance_permutation_coupling (seed n k : Nat) (qs : List String)
    (gls : List (List TopicTable)) (_hq : qs.length = n)
    (_hg : gls.length = n) (hk : k < n) :
    (sortIdxs seed n).getD k 0 < n ∧
    (reorder (showGuidance seed n) (sortIdxs seed n) false).getD k false =
      (showGuidance seed n).getD ((sortIdxs seed n).getD k 0) false ∧
    (reorder qs (sortIdxs seed n) "").getD k "" =
      qs.getD ((sortIdxs seed n).getD k 0) "" ∧
    (reorder gls (sortIdxs seed n) []).getD k [] =
      gls.getD ((sortIdxs seed n).getD k 0) [] := by
  have hk2 : k < (sortIdxs seed n).length := by
    rw [sortIdxs_length]; exact hk
  have hlt : (sortIdxs seed n).getD k 0 < n := by
    have hm : (sortIdxs seed n).getD k 0 ∈ sortIdxs seed n :=
      getD_mem _ k 0 hk2
    exact List.mem_range.mp ((npChoice_full_perm seed n).subset hm)
  exact ⟨hlt, reorder_getD _ _ _ _ hk2, reorder_getD _ _ _ _ hk2,
    reorder_getD _ _ _ _ hk2⟩

/-- **C5 witness**: the coupling equations instantiated at the seed of
`"u1"`, two cases, and output position `0`. -/
theorem c5_guidance_permutation_coupling_witness :
    (sortIdxs 41909017 2).getD 0 0 < 2 ∧
    (reorder (showGuidance 41909017 2) (sortIdxs 41909017 2) false).getD 0
        false =
      (showGuidance 41909017 2).getD ((sortIdxs 41909017 2).getD 0 0) false ∧
    (reorder ["a", "b"] (sortIdxs 41909017 2) "").getD 0 "" =
      ["a", "b"].getD ((sortIdxs 41909017 2).getD 0 0) "" ∧
    (reorder ([[], []] : List (List TopicTable)) (sortIdxs 41909017 2)
        []).getD 0 [] =
      ([[], []] : List (List TopicTable)).getD
        ((sortIdxs 41909017 2).getD 0 0) [] :=
  c5_guidance_permutation_coupling 41909017 2 0 ["a", "b"] [[], []]
    rfl rfl (by decide)

/-- The allowlist override of the timed flag (`app/main.py:223-224`): an
identifier on `PGY_PARTICIPANTS` receives `"1"` whatever the seeded draw
and whatever the path. -/
theorem timedFlag_forced_one (uid : String) (isDemo : Bool)
    (h : PGY_PARTICIPANTS.contains uid = true) :
    timedFlag uid isDemo = "1" := by
  unfold timedFlag
  rw [h]
  simp

/-- The demo override of the timed flag (`app/main.py:221-222`): on the
demo path an identifier off the allowlist receives `"0"` whatever the
seeded draw. -/
theorem timedFlag_demo_zero (uid : String)
    (h : PGY_PARTICIPANTS.contains uid = false) :
    timedFlag uid true = "0" := by
  unfold timedFlag
  rw [h]
  simp

/-- Off the allowlist and off the demo path, the timed flag is exactly the
seeded draw (`app/main.py:219-220`). -/
theorem timedFlag_off_overrides (uid : String)
    (h : PGY_PARTICIPANTS.contains uid = false) :
    timedFlag uid false = toString (timedDraw (hash_uid uid)) := by
  unfold timedFlag
  rw [h]
  simp

/-- **C9**: a GET request that is not the demo path and carries no `uid`
query parameter is answered with the instructions view — a value carrying
no assignment data, produced before any seed derivation or draw — and is
not an error. -/
theorem c9_missing_uid_instructions (st : Static) (r : GetReq)
    (hd : pyLower r.demoPath ≠ "demo")
    (hu : argsGet? r.args "uid" = none) :
    handleGet st r = IndexResponse.instructions := by
  have hb : (pyLower r.demoPath == "demo") = false :=
    beq_eq_false_iff_ne.mpr hd
  simp [handleGet, hb, hu]

/-- **C9 witness**: the bare route with an empty query string shows the
instructions view. -/
theorem c9_missing_uid_instructions_witness :
    handleGet ⟨[], [], [], []⟩ ⟨"", []⟩ = IndexResponse.instructions :=
  c9_missing_uid_instructions ⟨[], [], [], []⟩ ⟨"", []⟩ (by decide) rfl

/-- **C7**: every submitted free-text answer that is not an exact element
of the canonical study list is indexed with the sentinel `"-1"`, and such
answers do not fail the submission: whenever the spam trap and the demo
shortcut do not fire, the handler still performs exactly one forward to
the persistence endpoint and never aborts. -/
theorem c7_unmatched_answer_sentinel :
    (∀ (studies answers : List String) (i : Nat), i < answers.length →
      answers.getD i "" ∉ studies →
      (answerIndices studies answers).getD i "" = "-1") ∧
    ∀ (form : List (String × String)) (sr : List String) (now : String)
      (net : Net),
      formGet form "name" "" = "" →
      pyLower (formGet form "uid" "None") ≠ "demo" →
      (write_answers form sr now net).forwards.length = 1 ∧
      (write_answers form sr now net).result ≠ PostResult.abort500 := by
  constructor
  · intro studies answers i hi hmem
    unfold answerIndices
    rw [getD_congr _ i ""
      ((fun a => match studies.indexOf? a with
        | some j => toString j
        | none => "-1") "") (by simpa using hi),
      getD_map_lt _ answers i "" hi]
    have hnone : studies.indexOf? (answers.getD i "") = none :=
      List.indexOf?_eq_none_iff.mpr
        (fun x hx hbeq => hmem (eq_of_beq hbeq ▸ hx))
    have hred : (match studies.indexOf? (answers.getD i "") with
        | some j => toString j
        | none => "-1") = "-1" := by rw [hnone]
    exact hred
  · intro form sr now net h1 h2
    have hu : (pyLower (formGet form "uid" "None") == "demo") = false :=
      beq_eq_false_iff_ne.mpr h2
    simp only [write_answers, h1, hu, String.length, List.length_nil, ne_eq,
      eq_self_iff_true, not_true, Bool.false_eq_true, if_false]
    cases net with
    | down => simp [redirectEndpoint, url_for, flaskEndpoints]
    | status c =>
      by_cases hc : c = 200
      · subst hc
        simp [redirectEndpoint, url_for, flaskEndpoints]
      · simp [redirectEndpoint, url_for, flaskEndpoints, hc]

/-- **C7 witness**: the free text `"Xray-ish"` against a canonical list not
containing it yields `"-1"`, and a submission containing it still forwards
once. -/
theorem c7_unmatched_answer_sentinel_witness :
    (answerIndices (read_imaging_studies ["Radiography chest"])
        ["Xray-ish"]).getD 0 "" = "-1" ∧
    (write_answers [("uid", "u1"), ("Q1", "Xray-ish"), ("sort_idxs", "[0]"),
        ("with_guidance", "1"), ("timed", "0"), ("duration", "5")]
      ["Radiography chest"] "2024-01-01T00:00:00"
      (Net.status 200)).forwards.length = 1 ∧
    (write_answers [("uid", "u1"), ("Q1", "Xray-ish"), ("sort_idxs", "[0]"),
        ("with_guidance", "1"), ("timed", "0"), ("duration", "5")]
      ["Radiography chest"] "2024-01-01T00:00:00"
      (Net.status 200)).result ≠ PostResult.abort500 :=
  ⟨c7_unmatched_answer_sentinel.1 _ _ 0 (by decide) (by decide),
   (c7_unmatched_answer_sentinel.2 _ _ _ (Net.status 200) (by decide)
     (by decide)).1,
   (c7_unmatched_answer_sentinel.2 _ _ _ (Net.status 200) (by decide)
     (by decide)).2⟩

/-- **C8 (code evaluation)**: when the external forward fails — network
down or a non-200 status — the handler does *not* produce a redirect to an
error view: the calls `url_for("error/connection")` and
`url_for("error/post")` (`app/main.py:315,318`) name no endpoint of the
app, so the handler raises werkzeug's `BuildError` and the request ends in
an HTTP 500 server error (still distinguishable from success, but not the
redirect the spec describes). -/
theorem c8_forward_failure_is_500 (form : List (String × String))
    (sr : List String) (now : String)
    (h1 : formGet form "name" "" = "")
    (h2 : pyLower (formGet form "uid" "None") ≠ "demo") :
    (write_answers form sr now Net.down).result = PostResult.serverError ∧
    ∀ c : Nat, c ≠ 200 →
      (write_answers form sr now (Net.status c)).result =
        PostResult.serverError := by
  have hu : (pyLower (formGet form "uid" "None") == "demo") = false :=
    beq_eq_false_iff_ne.mpr h2
  constructor
  · simp only [write_answers, h1, hu, String.length, List.length_nil, ne_eq,
      eq_self_iff_true, not_true, Bool.false_eq_true, if_false]
    rfl
  · intro c hc
    simp only [write_answers, h1, hu, String.length, List.length_nil, ne_eq,
      eq_self_iff_true, not_true, Bool.false_eq_true, if_false]
    simp [redirectEndpoint, url_for, flaskEndpoints, hc]

/-- **C8 witness**: a concrete failing submission — connection error, and
status 404 — ends in the 500 server error. -/
theorem c8_forward_failure_is_500_witness :
    (write_answers [("uid", "u1"), ("Q1", "CT head")] ["CT head"] "t"
      Net.down).result = PostResult.serverError ∧
    (write_answers [("uid", "u1"), ("Q1", "CT head")] ["CT head"] "t"
      (Net.status 404)).result = PostResult.serverError :=
  ⟨(c8_forward_failure_is_500 _ _ _ (by decide) (by decide)).1,
   (c8_forward_failure_is_500 _ _ _ (by decide) (by decide)).2 404
     (by decide)⟩

/-- **C10**: a POST whose form carries a non-empty `name` field aborts with
HTTP 500 immediately: no answer is parsed and no forward is performed,
whatever the other fields and the network state. -/
theorem c10_spam_trap (form : List (String × String)) (sr : List String)
    (now : String) (net : Net)
    (h : (formGet form "name" "").length ≠ 0) :
    write_answers form sr now net = ⟨PostResult.abort500, []⟩ := by
  unfold write_answers
  rw [if_pos h]

/-- **C10 witness**: a filled hidden `name` field aborts even a
well-formed submission with a healthy network. -/
theorem c10_spam_trap_witness :
    write_answers [("name", "bot"), ("uid", "u1"), ("Q1", "CT head")]
      ["CT head"] "t" (Net.status 200) = ⟨PostResult.abort500, []⟩ :=
  c10_spam_trap _ _ _ (Net.status 200) (by decide)
